import Mathlib

/-!
Verification development for the Salesforce connector core
(src/connectors/sources/salesforce.py). The Python source is shallowly
embedded: parsed JSON values become an inductive `JValue`, dictionaries
become association lists, fallible operations return `Except`, and the
stateful token / cache objects become explicit state-passing functions.
-/

namespace Salesforce

/-- A parsed JSON value, as produced by `response.json()` in the source.
Objects are association lists; `null` doubles as Python `None`. -/
inductive JValue where
  | null
  | s (v : String)
  | i (v : Int)
  | b (v : Bool)
  | obj (fields : List (String × JValue))
  | arr (elems : List JValue)

/-- A Python dictionary of JSON values (an `obj` payload). -/
abbrev Record := List (String × JValue)

/-- Key lookup in a dictionary: `some v` when the key is present. -/
def jlookup (r : Record) (k : String) : Option JValue :=
  (r.find? (fun p => p.1 == k)).map (fun p => p.2)

/-- Python `d.get(k)`: the stored value, or `None` when the key is absent. -/
def dictGet (r : Record) (k : String) : JValue :=
  (jlookup r k).getD JValue.null

/-- Python `d.get(k, default)`: the stored value, or `default` when absent. -/
def dictGetD (r : Record) (k : String) (d : JValue) : JValue :=
  (jlookup r k).getD d

/-- Python `v.get(k)` on an arbitrary value: raises `AttributeError` unless
`v` is a dictionary. -/
def jvGet : JValue → String → Except String JValue
  | JValue.obj fs, k => Except.ok (dictGet fs k)
  | _, _ => Except.error "AttributeError"

/-- Python `v.get(k, default)` on an arbitrary value. -/
def jvGetD : JValue → String → JValue → Except String JValue
  | JValue.obj fs, k, d => Except.ok (dictGetD fs k d)
  | _, _, _ => Except.error "AttributeError"

/-- Python truthiness of a JSON value. -/
def truthy : JValue → Bool
  | JValue.null => false
  | JValue.s v => v ≠ ""
  | JValue.i v => v ≠ 0
  | JValue.b v => v
  | JValue.obj fs => !fs.isEmpty
  | JValue.arr es => !es.isEmpty

/-- Python `str(v)` / f-string interpolation of a value. Composite values
only ever carry identifier strings in the mapped fields, so their repr is
abbreviated; no verified property depends on it. -/
def pyStr : JValue → String
  | JValue.null => "None"
  | JValue.s v => v
  | JValue.i v => toString v
  | JValue.b true => "True"
  | JValue.b false => "False"
  | JValue.obj _ => "dict"
  | JValue.arr _ => "list"

/-- Whether a value is a dictionary. -/
def JValue.isObj : JValue → Bool
  | JValue.obj _ => true
  | _ => false

/-- Whether a value is a string. -/
def JValue.isStr : JValue → Bool
  | JValue.s _ => true
  | _ => false

/-! Constants from the head of the source module. -/

def RETRIES : Nat := 3

def API_VERSION : String := "v58.0"

def QUERY_ENDPOINT : String := "/services/data/" ++ API_VERSION ++ "/query"

/-! Error classification of a non-401 HTTP error response,
`SalesforceClient._handle_client_response_error` (source lines 366-414).
The exception messages are informational f-strings and are omitted;
only the exception class raised is modelled. -/

/-- One entry of the error array Salesforce returns in a 4xx body. -/
structure SfApiError where
  errorCode : String
deriving DecidableEq, Repr

/-- The exception class `_handle_client_response_error` raises. `authRetry`
is the 401 path (clear token, refresh, re-raise the original error so the
outer retry loop reissues the request); `generic` re-raises the original
`ClientResponseError` for statuses outside 400-499. -/
inductive SfError where
  | authRetry
  | rateLimited
  | invalidQuery
  | requestError
  | generic (status : Nat)
deriving DecidableEq, Repr

/-- `_handle_response_body_error` (source lines 410-414): an absent or empty
error array is replaced by a single `unknown` error code. -/
def handle_response_body_error (error_list : Option (List SfApiError)) : List SfApiError :=
  match error_list with
  | none => [⟨"unknown"⟩]
  | some l => if l.length < 1 then [⟨"unknown"⟩] else l

/-- Python `==` between a bool and a str is always `False`; used to model the
membership test of a bool in a list of strings found in the source. -/
def pyBoolEqStr (_ : Bool) (_ : String) : Bool := false

/-- Python `b in codes` where `b` is a bool and `codes` a list of strings:
each element is compared with `==`, which never holds between bool and str. -/
def pyBoolInStrList (b : Bool) (l : List String) : Bool :=
  l.any (pyBoolEqStr b)

/-- The query-error code set named at source lines 393-395. -/
def namedQueryCodes : List String :=
  ["INVALID_FIELD", "INVALID_TERM", "MALFORMED_QUERY"]

/-- `_handle_client_response_error` (source lines 366-408). The `elif`
condition at lines 389-399 is, literally as in the source,
`any(error in error_codes for error in [...]) in error_codes`:
the result of `any(...)` (a bool) is itself tested for membership in the
list of error-code strings. -/
def handle_client_response_error (status : Nat) (body : Option (List SfApiError)) : SfError :=
  if status == 401 then
    SfError.authRetry
  else if 400 ≤ status && status < 500 then
    let errors := handle_response_body_error body
    let error_codes := errors.map (fun x => x.errorCode)
    if error_codes.contains "REQUEST_LIMIT_EXCEEDED" then
      SfError.rateLimited
    else if pyBoolInStrList (namedQueryCodes.any (fun c => error_codes.contains c)) error_codes then
      SfError.invalidQuery
    else
      SfError.requestError
  else
    SfError.generic status

/-! The generic retry policy. The `retryable` decorator lives in
`connectors/utils.py`, which is not part of the sources under study; it is
modelled from the spec. -/

/-- Modelled from the spec: the `retryable(retries, interval, skipped_exceptions)`
decorator from `connectors/utils.py` (not under src/). Fixed budget of
`retries` total attempts with a fixed inter-attempt delay; an exception whose
class is in `skipped_exceptions` is raised immediately; other failures are
retried until the budget is exhausted, then the last failure is raised.
`next i` is the outcome of attempt number `i` (0-based); the result carries
the number of attempts actually made. -/
def retryAux {E A : Type} (skip : E → Bool) (next : Nat → Except E A) :
    Nat → Nat → Except E A × Nat
  | 0, i => (next i, i + 1)
  | Nat.succ budget, i =>
    match next i with
    | Except.ok v => (Except.ok v, i + 1)
    | Except.error e =>
      if skip e then (Except.error e, i + 1)
      else retryAux skip next budget (i + 1)

/-- Modelled from the spec: run a call under the retry policy with a total
budget of `retries` attempts. -/
def retryCall {E A : Type} (skip : E → Bool) (retries : Nat) (next : Nat → Except E A) :
    Except E A × Nat :=
  retryAux skip next (retries - 1) 0

/-- The skipped-exception set of `_get_json` (source lines 338-342):
`[RateLimitedException, InvalidQueryException]`. -/
def skipJson : SfError → Bool
  | SfError.rateLimited => true
  | SfError.invalidQuery => true
  | _ => false

/-! Pagination, `SalesforceClient._yield_non_bulk_query_pages`
(source lines 318-333). The remote server is modelled as a pure function
from a request to a parsed response body; the loop is given fuel because
the `while True` loop of the source would diverge on a server that never reports
completion. The list of issued requests is returned alongside the yielded
pages so that the request pattern is part of the verified behaviour. -/

/-- An HTTP GET request as issued by `_get`/`_get_json`: the url (a JSON
value, because the continuation url is taken straight out of the previous
response body) and the optional query params. -/
structure SfRequest where
  url : JValue
  params : Option (List (String × String))

/-- Python `v is True` on a parsed JSON value. -/
def pyIsTrue : JValue → Bool
  | JValue.b true => true
  | _ => false

/-- The loop body of `_yield_non_bulk_query_pages`: fetch the current url,
yield `response.get("records")`, stop unless `response.get("done", True)`
is not `True`, otherwise continue at `response.get("nextRecordsUrl")` with
no params. Returns (yielded pages, issued requests). -/
def yieldPagesAux (fetch : SfRequest → Record) : Nat → SfRequest → List JValue × List SfRequest
  | 0, _ => ([], [])
  | Nat.succ fuel, req =>
    let response := fetch req
    let page := dictGet response "records"
    if pyIsTrue (dictGetD response "done" (JValue.b true)) then
      ([page], [req])
    else
      let rest := yieldPagesAux fetch fuel ⟨dictGet response "nextRecordsUrl", none⟩
      (page :: rest.1, req :: rest.2)

/-- `_yield_non_bulk_query_pages(soql_query)`: the first request targets the
query endpoint with the query text as the `q` param. -/
def yield_non_bulk_query_pages (fetch : SfRequest → Record) (base_url soql_query : String)
    (fuel : Nat) : List JValue × List SfRequest :=
  yieldPagesAux fetch fuel ⟨JValue.s (base_url ++ QUERY_ENDPOINT), some [("q", soql_query)]⟩

/-! The token manager, `SalesforceAPIToken` (source lines 523-575), and the
`get_token` wrapper (source lines 123-137). State is the pair of the lock
flag and the stored token (`None` is `JValue.null`). -/

/-- The exception raised by a `generate()` call. `parseFailure` stands for a
non-`ClientResponseError` raised by `response.json()`, `keyError` for the
`KeyError` on a success body lacking `access_token`; both propagate raw. -/
inductive TokenError where
  | locked
  | invalidCredentials
  | tokenFetch
  | parseFailure
  | keyError
deriving DecidableEq, Repr

/-- The response of the token endpoint: HTTP status and parsed body
(`none` when the body cannot be parsed as JSON). -/
structure TokenResponse where
  status : Nat
  body : Option Record

/-- The 4xx-branch test of `generate` (source lines 549-552): the `error`
field of the body (defaulted as in the source when absent) compared by Python
`==` against `"invalid_client"`, which can only hold for a string value. -/
def invalidClientBody (response_body : Record) : Bool :=
  match dictGetD response_body "error" (JValue.s "No error dscription found.") with
  | JValue.s v => v == "invalid_client"
  | _ => false

/-- `SalesforceAPIToken.generate` (source lines 538-563) together with the
`_non_blocking_lock` guard (lines 568-575). Takes the lock state, the
endpoint response and the currently stored token; returns the outcome and
the stored token afterwards. The assignment `self._token = response_body["access_token"]`
happens only after `raise_for_status()` passes and the key is present. -/
def generate (locked : Bool) (resp : TokenResponse) (token : JValue) :
    Except TokenError Unit × JValue :=
  if locked then
    (Except.error TokenError.locked, token)
  else
    match resp.body with
    | none => (Except.error TokenError.parseFailure, token)
    | some response_body =>
      if 400 ≤ resp.status then
        if resp.status < 500 then
          if invalidClientBody response_body then
            (Except.error TokenError.invalidCredentials, token)
          else (Except.error TokenError.tokenFetch, token)
        else
          (Except.error TokenError.tokenFetch, token)
      else
        match jlookup response_body "access_token" with
        | some v => (Except.ok (), v)
        | none => (Except.error TokenError.keyError, token)

/-- The body of `SalesforceClient.get_token` (source lines 128-137): a
`LockedException` from `generate` is caught and treated as success
("token generation is already in process"); every other exception is
re-raised. -/
def get_token_attempt (genResult : Except TokenError Unit) : Except TokenError Unit :=
  match genResult with
  | Except.ok () => Except.ok ()
  | Except.error TokenError.locked => Except.ok ()
  | Except.error e => Except.error e

/-- The skipped-exception set of `get_token` (source lines 123-127):
`[InvalidCredentialsException]`. -/
def tokenSkip : TokenError → Bool
  | TokenError.invalidCredentials => true
  | _ => false

/-! The query builder, `SalesforceSoqlBuilder` (source lines 578-617). -/

/-- Builder state. `whereClause`, `order_by` and `limit` are rendered clause
strings, empty until set (the attribute named `where` in the source is renamed because
`where` is a Lean keyword). -/
structure SalesforceSoqlBuilder where
  table_name : String
  fields : List String
  whereClause : String
  order_by : String
  limit : String

/-- `SalesforceSoqlBuilder(table)`. -/
def SalesforceSoqlBuilder.mk0 (table : String) : SalesforceSoqlBuilder :=
  ⟨table, [], "", "", ""⟩

/-- One mutating call on the builder. -/
inductive BuilderOp where
  | with_id
  | with_default_metafields
  | with_fields (fields : List String)
  | with_where (where_string : String)
  | with_order_by (order_by_string : String)
  | with_limit (limit : Nat)
  | with_join (join : String)

/-- Apply one builder call (source lines 586-605). -/
def applyOp (b : SalesforceSoqlBuilder) : BuilderOp → SalesforceSoqlBuilder
  | BuilderOp.with_id => { b with fields := b.fields ++ ["Id"] }
  | BuilderOp.with_default_metafields =>
    { b with fields := b.fields ++ ["CreatedDate", "LastModifiedDate"] }
  | BuilderOp.with_fields fs => { b with fields := b.fields ++ fs }
  | BuilderOp.with_where s => { b with whereClause := "WHERE " ++ s }
  | BuilderOp.with_order_by s => { b with order_by := "ORDER BY " ++ s }
  | BuilderOp.with_limit n => { b with limit := "LIMIT " ++ toString n }
  | BuilderOp.with_join join => { b with fields := b.fields ++ ["(\n" ++ join ++ ")\n"] }

/-- Apply a sequence of builder calls in order. -/
def applyOps (b : SalesforceSoqlBuilder) (ops : List BuilderOp) : SalesforceSoqlBuilder :=
  ops.foldl applyOp b

/-- Whether a call only adds fields (as opposed to setting an optional
WHERE / ORDER BY / LIMIT clause). -/
def BuilderOp.addsFields : BuilderOp → Bool
  | BuilderOp.with_where _ => false
  | BuilderOp.with_order_by _ => false
  | BuilderOp.with_limit _ => false
  | _ => true

/-- Python `set(fields)`: each distinct element exactly once. Iteration
order of a Python set is unspecified; `List.dedup` fixes one order, and no
verified property depends on the order. -/
def pySet (l : List String) : List String := l.dedup

/-- The non-empty lines of `build()` (source lines 607-617). -/
def buildLines (b : SalesforceSoqlBuilder) : List String :=
  let select_columns := String.intercalate ",\n" (pySet b.fields)
  let query_lines := ["SELECT " ++ select_columns, "FROM " ++ b.table_name,
    b.whereClause, b.order_by, b.limit]
  query_lines.filter (fun line => line ≠ "")

/-- `SalesforceSoqlBuilder.build` (source lines 607-617). -/
def build (b : SalesforceSoqlBuilder) : String :=
  String.intercalate "\n" (buildLines b)

/-! The reference-entity cache, `SalesforceClient.sobjects_cache_by_type`
(source lines 260-281). The per-type builder `_prepare_sobject_cache` is
abstracted as a function from the sobject name to a result, since the claim
under study concerns only the sequencing and memoization of the four
builds. The memo field `_sobjects_cache_by_type` starts as `none`, is set
to the empty dict before the first build, and each completed build is
written into it, exactly as the attribute assignments in the source. The
list of sobject names for which the builder was invoked is returned so
that "a table was built" is part of the verified behaviour. -/

/-- The fixed build order at source lines 271-280. -/
def cacheOrder : List String := ["Account", "Contact", "Opportunity", "User"]

/-- Sequentially build the caches for `types`, threading the partially
filled memo dict, and recording each builder invocation. -/
def cacheBuildAux {E C : Type} (prepare : String → Except E C) :
    List String → List (String × C) → List String →
    Except E (List (String × C)) × Option (List (String × C)) × List String
  | [], acc, calls => (Except.ok acc, some acc, calls.reverse)
  | t :: ts, acc, calls =>
    match prepare t with
    | Except.ok c => cacheBuildAux prepare ts (acc ++ [(t, c)]) (t :: calls)
    | Except.error e => (Except.error e, some acc, (t :: calls).reverse)

/-- `sobjects_cache_by_type` as a state transition: given the memo state,
return (result, new memo state, builder invocations made). -/
def sobjects_cache_by_type {E C : Type} (prepare : String → Except E C)
    (memo : Option (List (String × C))) :
    Except E (List (String × C)) × Option (List (String × C)) × List String :=
  match memo with
  | some m => (Except.ok m, some m, [])
  | none => cacheBuildAux prepare cacheOrder [] []

/-! The document mappers, `SalesforceDocMapper` (source lines 620-775).
Each mapper takes the raw record (a parsed JSON dictionary) and returns the
canonical document; operations that can raise in Python (`.get` on a
non-dictionary, `len`/indexing on a non-list, joining non-strings) return
`Except`. -/

/-- The `address_fields` list of `_format_address` (source lines 768-774),
already filtered by truthiness as in the comprehension at line 775. -/
def addressParts (fs : List (String × JValue)) : List JValue :=
  ([dictGet fs "street", dictGet fs "city", dictGet fs "state",
    JValue.s (pyStr (dictGetD fs "postalCode" (JValue.s ""))),
    dictGet fs "country"]).filter truthy

/-- The dictionary branch of `_format_address`: Python `", ".join` raises
unless every joined component is a string. -/
def format_address_obj (fs : List (String × JValue)) : Except String JValue :=
  if (addressParts fs).all JValue.isStr then
    Except.ok (JValue.s (String.intercalate ", " ((addressParts fs).map pyStr)))
  else
    Except.error "TypeError"

/-- `SalesforceDocMapper._format_address` (source lines 764-775). -/
def format_address (address : JValue) : Except String JValue :=
  if truthy address then
    match address with
    | JValue.obj fs => format_address_obj fs
    | _ => Except.error "AttributeError"
  else
    Except.ok (JValue.s "")

/-- `SalesforceDocMapper.map_account` (source lines 624-657). -/
def map_account (base_url : String) (account : Record) : Except String Record := do
  let owner := dictGetD account "Owner" (JValue.obj [])
  let opportunities := dictGet account "Opportunities"
  let opportunity_records ←
    if truthy opportunities then jvGetD opportunities "records" (JValue.arr [])
    else pure (JValue.arr [])
  let opportunity ←
    match opportunity_records with
    | JValue.arr (x :: _) => pure x
    | JValue.arr [] => pure (JValue.obj [])
    | _ => Except.error "TypeError"
  let opportunity_url ←
    if truthy opportunity then do
      let oid ← jvGet opportunity "Id"
      pure (JValue.s (base_url ++ "/" ++ pyStr oid))
    else pure (JValue.s "")
  let opportunity_status ← jvGetD opportunity "StageName" (JValue.s "")
  let opportunity_name ← jvGet opportunity "Name"
  let owner_name ← jvGet owner "Name"
  let owner_email ← jvGet owner "Email"
  let address ← format_address (dictGet account "BillingAddress")
  pure [("_id", dictGet account "Id"),
    ("account_type", dictGet account "Type"),
    ("address", address),
    ("body", dictGet account "Description"),
    ("content_source_id", dictGet account "Id"),
    ("created_at", dictGet account "CreatedDate"),
    ("last_updated", dictGet account "LastModifiedDate"),
    ("open_activities", JValue.s ""),
    ("open_activities_urls", JValue.s ""),
    ("opportunity_name", opportunity_name),
    ("opportunity_status", opportunity_status),
    ("opportunity_url", opportunity_url),
    ("owner", owner_name),
    ("owner_email", owner_email),
    ("rating", dictGet account "Rating"),
    ("source", JValue.s "salesforce"),
    ("tags", JValue.arr [dictGet account "Type"]),
    ("title", dictGet account "Name"),
    ("type", JValue.s "account"),
    ("url", JValue.s (base_url ++ "/" ++ pyStr (dictGet account "Id"))),
    ("website_url", dictGet account "Website")]

/-- `SalesforceDocMapper.map_opportunity` (source lines 659-676). -/
def map_opportunity (base_url : String) (opportunity : Record) : Except String Record := do
  let owner := dictGetD opportunity "Owner" (JValue.obj [])
  let owner_name ← jvGet owner "Name"
  let owner_email ← jvGet owner "Email"
  pure [("_id", dictGet opportunity "Id"),
    ("body", dictGet opportunity "Description"),
    ("content_source_id", dictGet opportunity "Id"),
    ("created_at", dictGet opportunity "CreatedDate"),
    ("last_updated", dictGet opportunity "LastModifiedDate"),
    ("next_step", dictGet opportunity "NextStep"),
    ("owner", owner_name),
    ("owner_email", owner_email),
    ("source", JValue.s "salesforce"),
    ("status", dictGetD opportunity "StageName" (JValue.s "")),
    ("title", dictGet opportunity "Name"),
    ("type", JValue.s "opportunity"),
    ("url", JValue.s (base_url ++ "/" ++ pyStr (dictGet opportunity "Id")))]

/-- `SalesforceDocMapper.map_contact` (source lines 678-707). -/
def map_contact (base_url : String) (contact : Record) : Except String Record := do
  let account := dictGetD contact "Account" (JValue.obj [])
  let account_id := dictGetD contact "AccountId" (JValue.s "")
  let account_url :=
    if truthy account_id then JValue.s (base_url ++ "/" ++ pyStr account_id)
    else JValue.s ""
  let owner := dictGetD contact "Owner" (JValue.obj [])
  let owner_id := dictGetD contact "OwnerId" (JValue.s "")
  let owner_url :=
    if truthy owner_id then JValue.s (base_url ++ "/" ++ pyStr owner_id)
    else JValue.s ""
  let photo_url := dictGet contact "PhotoUrl"
  let thumbnail :=
    if truthy photo_url then JValue.s (base_url ++ pyStr photo_url)
    else JValue.s ""
  let account_name ← jvGet account "Name"
  let owner_name ← jvGet owner "Name"
  pure [("_id", dictGet contact "Id"),
    ("account", account_name),
    ("account_url", account_url),
    ("body", dictGet contact "Description"),
    ("email", dictGet contact "Email"),
    ("job_title", dictGet contact "Title"),
    ("last_updated", dictGet contact "LastModifiedDate"),
    ("lead_source", dictGet contact "LeadSource"),
    ("owner", owner_name),
    ("owner_url", owner_url),
    ("phone", dictGet contact "Phone"),
    ("source", JValue.s "salesforce"),
    ("thumbnail", thumbnail),
    ("title", dictGet contact "Name"),
    ("type", JValue.s "contact"),
    ("url", JValue.s (base_url ++ "/" ++ pyStr (dictGet contact "Id")))]

/-- `SalesforceDocMapper.map_lead` (source lines 709-762). The line
`converted_contact_id = converted_account.get("Id")` (source line 721)
reads the Id out of the converted ACCOUNT sub-record; the embedding
reproduces that literally. -/
def map_lead (base_url : String) (lead : Record) : Except String Record := do
  let owner := dictGetD lead "Owner" (JValue.obj [])
  let owner_id := dictGetD lead "OwnerId" (JValue.s "")
  let owner_url :=
    if truthy owner_id then JValue.s (base_url ++ "/" ++ pyStr owner_id)
    else JValue.s ""
  let converted_account := dictGetD lead "ConvertedAccount" (JValue.obj [])
  let converted_account_id ← jvGet converted_account "Id"
  let converted_account_url :=
    if truthy converted_account_id then JValue.s (base_url ++ "/" ++ pyStr converted_account_id)
    else JValue.null
  let converted_contact := dictGetD lead "ConvertedContact" (JValue.obj [])
  let converted_contact_id ← jvGet converted_account "Id"
  let converted_contact_url :=
    if truthy converted_contact_id then JValue.s (base_url ++ "/" ++ pyStr converted_contact_id)
    else JValue.null
  let converted_opportunity := dictGetD lead "ConvertedOpportunity" (JValue.obj [])
  let converted_opportunity_id ← jvGet converted_opportunity "Id"
  let converted_opportunity_url :=
    if truthy converted_opportunity_id then
      JValue.s (base_url ++ "/" ++ pyStr converted_opportunity_id)
    else JValue.null
  let photo_url := dictGet lead "PhotoUrl"
  let thumbnail :=
    if truthy photo_url then JValue.s (base_url ++ pyStr photo_url)
    else JValue.null
  let converted_account_name ← jvGet converted_account "Name"
  let converted_contact_name ← jvGet converted_contact "Name"
  let converted_opportunity_name ← jvGet converted_opportunity "Name"
  let owner_name ← jvGet owner "Name"
  pure [("_id", dictGet lead "Id"),
    ("body", dictGet lead "Description"),
    ("company", dictGet lead "Company"),
    ("converted_account", converted_account_name),
    ("converted_account_url", converted_account_url),
    ("converted_at", dictGet lead "ConvertedDate"),
    ("converted_contact", converted_contact_name),
    ("converted_contact_url", converted_contact_url),
    ("converted_opportunity", converted_opportunity_name),
    ("converted_opportunity_url", converted_opportunity_url),
    ("email", dictGet lead "Email"),
    ("job_title", dictGet lead "Title"),
    ("last_updated", dictGet lead "LastModifiedDate"),
    ("lead_source", dictGet lead "LeadSource"),
    ("owner", owner_name),
    ("owner_url", owner_url),
    ("phone", dictGet lead "Phone"),
    ("rating", dictGet lead "Rating"),
    ("source", JValue.s "salesforce"),
    ("status", dictGet lead "Status"),
    ("title", dictGet lead "Name"),
    ("thumbnail", thumbnail),
    ("type", JValue.s "lead"),
    ("url", JValue.s (base_url ++ "/" ++ pyStr (dictGet lead "Id")))]

/-! Shape predicates describing records whose present fields have the types
the source expects (sub-records under the well-known enrichment keys are
dictionaries, a billing address is a dictionary of strings, the embedded
Opportunities relation has the query-result shape). Absent fields always
satisfy them. -/

/-- A billing address the source can format: either falsy (absent/empty) or
a dictionary whose truthy components are strings. -/
def wfAddress : JValue → Bool
  | JValue.obj fs => (addressParts fs).all JValue.isStr
  | v => !truthy v

/-- Shape of a query-result `records` value: a list whose head (if any) is
a dictionary. -/
def wfRecords : JValue → Bool
  | JValue.arr [] => true
  | JValue.arr (x :: _) => x.isObj
  | _ => false

/-- An embedded Opportunities relation the source can read: absent/falsy, or
a dictionary whose `records` entry defaults to a list whose head (if any) is
a dictionary. -/
def wfOpportunities : JValue → Bool
  | JValue.obj fs =>
    if truthy (JValue.obj fs) then wfRecords (dictGetD fs "records" (JValue.arr []))
    else true
  | v => !truthy v

/-- Record shape assumed by `map_account`. -/
def wf_account (r : Record) : Bool :=
  (dictGetD r "Owner" (JValue.obj [])).isObj &&
  wfOpportunities (dictGet r "Opportunities") &&
  wfAddress (dictGet r "BillingAddress")

/-- Record shape assumed by `map_opportunity`. -/
def wf_opportunity (r : Record) : Bool :=
  (dictGetD r "Owner" (JValue.obj [])).isObj

/-- Record shape assumed by `map_contact`. -/
def wf_contact (r : Record) : Bool :=
  (dictGetD r "Account" (JValue.obj [])).isObj &&
  (dictGetD r "Owner" (JValue.obj [])).isObj

/-- Record shape assumed by `map_lead`. -/
def wf_lead (r : Record) : Bool :=
  (dictGetD r "Owner" (JValue.obj [])).isObj &&
  (dictGetD r "ConvertedAccount" (JValue.obj [])).isObj &&
  (dictGetD r "ConvertedContact" (JValue.obj [])).isObj &&
  (dictGetD r "ConvertedOpportunity" (JValue.obj [])).isObj

lemma exists_of_isObj {v : JValue} (h : v.isObj = true) : ∃ fs, v = JValue.obj fs := by
  cases v <;> simp [JValue.isObj] at h ⊢

lemma jvGet_obj (fs : List (String × JValue)) (k : String) :
    jvGet (JValue.obj fs) k = Except.ok (dictGet fs k) := rfl

lemma jvGetD_obj (fs : List (String × JValue)) (k : String) (d : JValue) :
    jvGetD (JValue.obj fs) k d = Except.ok (dictGetD fs k d) := rfl

lemma except_bind_ok {E A B : Type} (a : A) (f : A → Except E B) :
    ((Except.ok a : Except E A) >>= f) = f a := rfl

lemma except_bind_error {E A B : Type} (e : E) (f : A → Except E B) :
    ((Except.error e : Except E A) >>= f) = Except.error e := rfl

lemma except_pure {E A : Type} (a : A) : (pure a : Except E A) = Except.ok a := rfl

lemma format_address_ok {v : JValue} (h : wfAddress v = true) :
    ∃ s, format_address v = Except.ok (JValue.s s) := by
  cases v with
  | obj fs =>
    simp only [wfAddress] at h
    by_cases ht : truthy (JValue.obj fs)
    · refine ⟨String.intercalate ", " ((addressParts fs).map pyStr), ?_⟩
      unfold format_address
      rw [if_pos ht]
      show format_address_obj fs = _
      unfold format_address_obj
      rw [if_pos h]
    · exact ⟨"", by unfold format_address; rw [if_neg ht]⟩
  | null => exact ⟨"", rfl⟩
  | s v =>
    refine ⟨"", ?_⟩
    simp only [wfAddress, Bool.not_eq_true'] at h
    unfold format_address
    rw [if_neg (by simp [h])]
  | i v =>
    refine ⟨"", ?_⟩
    simp only [wfAddress, Bool.not_eq_true'] at h
    unfold format_address
    rw [if_neg (by simp [h])]
  | b v =>
    refine ⟨"", ?_⟩
    simp only [wfAddress, Bool.not_eq_true'] at h
    unfold format_address
    rw [if_neg (by simp [h])]
  | arr es =>
    refine ⟨"", ?_⟩
    simp only [wfAddress, Bool.not_eq_true'] at h
    unfold format_address
    rw [if_neg (by simp [h])]

lemma map_opportunity_ok (base_url : String) (r : Record) (h : wf_opportunity r = true) :
    ∃ d, map_opportunity base_url r = Except.ok d := by
  unfold wf_opportunity at h
  obtain ⟨fs, hfs⟩ := exists_of_isObj h
  unfold map_opportunity
  rw [hfs]
  exact ⟨_, rfl⟩

lemma map_contact_ok (base_url : String) (r : Record) (h : wf_contact r = true) :
    ∃ d, map_contact base_url r = Except.ok d := by
  unfold wf_contact at h
  simp only [Bool.and_eq_true] at h
  obtain ⟨fsa, hfsa⟩ := exists_of_isObj h.1
  obtain ⟨fso, hfso⟩ := exists_of_isObj h.2
  unfold map_contact
  rw [hfsa, hfso]
  exact ⟨_, rfl⟩

lemma map_lead_ok (base_url : String) (r : Record) (h : wf_lead r = true) :
    ∃ d, map_lead base_url r = Except.ok d := by
  unfold wf_lead at h
  simp only [Bool.and_eq_true] at h
  obtain ⟨⟨⟨h1, h2⟩, h3⟩, h4⟩ := h
  obtain ⟨fs1, hfs1⟩ := exists_of_isObj h1
  obtain ⟨fs2, hfs2⟩ := exists_of_isObj h2
  obtain ⟨fs3, hfs3⟩ := exists_of_isObj h3
  obtain ⟨fs4, hfs4⟩ := exists_of_isObj h4
  unfold map_lead
  rw [hfs1, hfs2, hfs3, hfs4]
  exact ⟨_, rfl⟩

lemma map_account_ok (base_url : String) (r : Record) (h : wf_account r = true) :
    ∃ d, map_account base_url r = Except.ok d := by
  unfold wf_account at h
  simp only [Bool.and_eq_true] at h
  obtain ⟨⟨hOwner, hOpp⟩, hAddr⟩ := h
  obtain ⟨ofs, hofs⟩ := exists_of_isObj hOwner
  obtain ⟨addr, haddr⟩ := format_address_ok hAddr
  unfold map_account
  by_cases ht : truthy (dictGet r "Opportunities")
  · cases hv : dictGet r "Opportunities" with
    | obj pfs =>
      rw [hv] at hOpp ht
      simp only [wfOpportunities, ht, if_true] at hOpp
      cases hrec : dictGetD pfs "records" (JValue.arr []) with
      | arr es =>
        rw [hrec] at hOpp
        cases es with
        | nil =>
          apply Exists.intro
          rw [if_pos ht, jvGetD_obj, hrec]
          simp only [except_bind_ok, except_pure, jvGet_obj, jvGetD_obj, hofs, haddr]
          exact rfl
        | cons x xs =>
          simp only [wfRecords] at hOpp
          obtain ⟨xfs, hxfs⟩ := exists_of_isObj hOpp
          subst hxfs
          by_cases hx : truthy (JValue.obj xfs)
          · apply Exists.intro
            rw [if_pos ht, jvGetD_obj, hrec]
            simp only [except_bind_ok, except_pure, jvGet_obj, jvGetD_obj, hx, hofs, haddr]
            exact rfl
          · rw [Bool.not_eq_true] at hx
            apply Exists.intro
            rw [if_pos ht, jvGetD_obj, hrec]
            simp only [except_bind_ok, except_pure, jvGet_obj, jvGetD_obj, hx, hofs, haddr]
            exact rfl
      | null =>
        rw [hrec] at hOpp
        exact absurd hOpp (by simp [wfRecords])
      | s v =>
        rw [hrec] at hOpp
        exact absurd hOpp (by simp [wfRecords])
      | i v =>
        rw [hrec] at hOpp
        exact absurd hOpp (by simp [wfRecords])
      | b v =>
        rw [hrec] at hOpp
        exact absurd hOpp (by simp [wfRecords])
      | obj fs2 =>
        rw [hrec] at hOpp
        exact absurd hOpp (by simp [wfRecords])
    | null => rw [hv] at ht; simp [truthy] at ht
    | s v =>
      rw [hv] at hOpp ht
      simp [wfOpportunities, ht] at hOpp
    | i v =>
      rw [hv] at hOpp ht
      simp [wfOpportunities, ht] at hOpp
    | b v =>
      rw [hv] at hOpp ht
      simp [wfOpportunities, ht] at hOpp
    | arr es =>
      rw [hv] at hOpp ht
      simp [wfOpportunities, ht] at hOpp
  · rw [Bool.not_eq_true] at ht
    apply Exists.intro
    simp only [ht, except_bind_ok, except_pure, jvGet_obj, jvGetD_obj, hofs, haddr]
    exact rfl

/-! Helper lemmas for the query-builder claim. -/

lemma applyOps_field_ops_clauses (ops : List BuilderOp) :
    ∀ b : SalesforceSoqlBuilder, (∀ op ∈ ops, op.addsFields = true) →
      (applyOps b ops).whereClause = b.whereClause ∧
      (applyOps b ops).order_by = b.order_by ∧
      (applyOps b ops).limit = b.limit ∧
      (applyOps b ops).table_name = b.table_name := by
  induction ops with
  | nil => intro b _; exact ⟨rfl, rfl, rfl, rfl⟩
  | cons op rest ih =>
    intro b hops
    have hop := hops op (List.mem_cons_self op rest)
    have hrest := ih (applyOp b op) (fun o ho => hops o (List.mem_cons_of_mem op ho))
    cases op with
    | with_id => exact hrest
    | with_default_metafields => exact hrest
    | with_fields fs => exact hrest
    | with_join j => exact hrest
    | with_where s => exact absurd hop (by simp [BuilderOp.addsFields])
    | with_order_by s => exact absurd hop (by simp [BuilderOp.addsFields])
    | with_limit n => exact absurd hop (by simp [BuilderOp.addsFields])

lemma string_prefix_append_ne_empty (p s : String) (hp : 0 < p.length) :
    p ++ s ≠ "" := by
  intro h
  have h2 := congrArg String.length h
  rw [String.length_append, show ("" : String).length = 0 from rfl] at h2
  omega

/-- Claim C4: for every sequence of field-adding operations on a query
builder (including duplicate field names), `build()` renders a SELECT clause
containing each distinct added field exactly once, and each optional clause
(WHERE, ORDER BY, LIMIT) that was never set produces no corresponding line
in the output. -/
theorem c4_builder_dedup_and_omitted_clauses (table : String) (ops : List BuilderOp)
    (hops : ∀ op ∈ ops, op.addsFields = true) :
    (∀ f, (pySet (applyOps (SalesforceSoqlBuilder.mk0 table) ops).fields).count f =
      if f ∈ (applyOps (SalesforceSoqlBuilder.mk0 table) ops).fields then 1 else 0) ∧
    (applyOps (SalesforceSoqlBuilder.mk0 table) ops).whereClause = "" ∧
    (applyOps (SalesforceSoqlBuilder.mk0 table) ops).order_by = "" ∧
    (applyOps (SalesforceSoqlBuilder.mk0 table) ops).limit = "" ∧
    buildLines (applyOps (SalesforceSoqlBuilder.mk0 table) ops) =
      ["SELECT " ++ String.intercalate ",\n"
        (pySet (applyOps (SalesforceSoqlBuilder.mk0 table) ops).fields),
       "FROM " ++ table] ∧
    build (applyOps (SalesforceSoqlBuilder.mk0 table) ops) =
      "SELECT " ++ String.intercalate ",\n"
        (pySet (applyOps (SalesforceSoqlBuilder.mk0 table) ops).fields) ++
      "\n" ++ ("FROM " ++ table) := by
  obtain ⟨hw, ho, hl, htn⟩ :=
    applyOps_field_ops_clauses ops (SalesforceSoqlBuilder.mk0 table) hops
  have hw0 : (applyOps (SalesforceSoqlBuilder.mk0 table) ops).whereClause = "" := hw
  have ho0 : (applyOps (SalesforceSoqlBuilder.mk0 table) ops).order_by = "" := ho
  have hl0 : (applyOps (SalesforceSoqlBuilder.mk0 table) ops).limit = "" := hl
  have htn0 : (applyOps (SalesforceSoqlBuilder.mk0 table) ops).table_name = table := htn
  have hsel : "SELECT " ++ String.intercalate ",\n"
      (pySet (applyOps (SalesforceSoqlBuilder.mk0 table) ops).fields) ≠ "" :=
    string_prefix_append_ne_empty _ _ (by decide)
  have hfrom : "FROM " ++ table ≠ "" :=
    string_prefix_append_ne_empty _ _ (by decide)
  have hlines : buildLines (applyOps (SalesforceSoqlBuilder.mk0 table) ops) =
      ["SELECT " ++ String.intercalate ",\n"
        (pySet (applyOps (SalesforceSoqlBuilder.mk0 table) ops).fields),
       "FROM " ++ table] := by
    unfold buildLines
    rw [hw0, ho0, hl0, htn0]
    simp [hsel, hfrom]
  refine ⟨fun f => List.count_dedup _ _, hw0, ho0, hl0, hlines, ?_⟩
  unfold build
  rw [hlines]
  exact rfl

/-- Claim C1 concerns source lines 389-399: the membership test there
compares the boolean result of `any(...)` against the string error codes, so
a 4xx response carrying `INVALID_FIELD`, `INVALID_TERM` or `MALFORMED_QUERY`
is classified as the generic `RequestError`, not as `InvalidQueryException`
as the specification states. This theorem evaluates the classifier at the
failing inputs. -/
theorem c1_invalid_query_codes_yield_request_error :
    handle_client_response_error 400 (some [⟨"INVALID_FIELD"⟩]) = SfError.requestError ∧
    handle_client_response_error 400 (some [⟨"INVALID_TERM"⟩, ⟨"OTHER_CODE"⟩]) =
      SfError.requestError ∧
    handle_client_response_error 400 (some [⟨"MALFORMED_QUERY"⟩]) = SfError.requestError ∧
    handle_client_response_error 400 (some [⟨"INVALID_FIELD"⟩]) ≠ SfError.invalidQuery :=
  ⟨rfl, rfl, rfl, by decide⟩

/-! Step lemmas for the retry-policy model. -/

lemma retryAux_succ_err {E A : Type} {skip : E → Bool} {next : Nat → Except E A}
    {budget i : Nat} {e : E} (h : next i = Except.error e) (hskip : skip e = false) :
    retryAux skip next (Nat.succ budget) i = retryAux skip next budget (i + 1) := by
  rw [retryAux, h]
  simp [hskip]

lemma retryAux_succ_skip {E A : Type} {skip : E → Bool} {next : Nat → Except E A}
    {budget i : Nat} {e : E} (h : next i = Except.error e) (hskip : skip e = true) :
    retryAux skip next (Nat.succ budget) i = (Except.error e, i + 1) := by
  rw [retryAux, h]
  simp [hskip]

lemma retryAux_succ_ok {E A : Type} {skip : E → Bool} {next : Nat → Except E A}
    {budget i : Nat} {v : A} (h : next i = Except.ok v) :
    retryAux skip next (Nat.succ budget) i = (Except.ok v, i + 1) := by
  rw [retryAux, h]

lemma retryAux_zero {E A : Type} {skip : E → Bool} {next : Nat → Except E A} {i : Nat} :
    retryAux skip next 0 i = (next i, i + 1) := by
  rw [retryAux]

/-- Claim C6: under the generic retry policy of `_get_json` (budget `RETRIES`
with skipped exceptions `RateLimitedException` and `InvalidQueryException`),
two retryable failures followed by a success return the success after exactly
3 attempts, while a `RateLimited` or `InvalidQuery` classification propagates
after exactly 1 attempt. -/
theorem c6_generic_retry_counts :
    (∀ (A : Type) (next : Nat → Except SfError A) (e1 e2 : SfError) (v : A),
      next 0 = Except.error e1 → next 1 = Except.error e2 → next 2 = Except.ok v →
      skipJson e1 = false → skipJson e2 = false →
      retryCall skipJson RETRIES next = (Except.ok v, 3)) ∧
    (∀ (A : Type) (next : Nat → Except SfError A) (e : SfError),
      next 0 = Except.error e →
      e = SfError.rateLimited ∨ e = SfError.invalidQuery →
      retryCall skipJson RETRIES next = (Except.error e, 1)) := by
  constructor
  · intro A next e1 e2 v h0 h1 h2 hs1 hs2
    show retryAux skipJson next (Nat.succ 1) 0 = (Except.ok v, 3)
    rw [retryAux_succ_err h0 hs1]
    show retryAux skipJson next (Nat.succ 0) 1 = (Except.ok v, 3)
    rw [retryAux_succ_err h1 hs2]
    show retryAux skipJson next 0 2 = (Except.ok v, 3)
    rw [retryAux_zero, h2]
  · intro A next e h0 he
    have hs : skipJson e = true := by
      rcases he with rfl | rfl <;> rfl
    show retryAux skipJson next (Nat.succ 1) 0 = (Except.error e, 1)
    rw [retryAux_succ_skip h0 hs]

/-! Step lemmas for the pagination loop. -/

lemma yieldPagesAux_step_done {fetch : SfRequest → Record} {req : SfRequest} {resp : Record}
    (h : fetch req = resp)
    (hdone : pyIsTrue (dictGetD resp "done" (JValue.b true)) = true) (fuel : Nat) :
    yieldPagesAux fetch (fuel + 1) req = ([dictGet resp "records"], [req]) := by
  show yieldPagesAux fetch (Nat.succ fuel) req = _
  rw [yieldPagesAux, h]
  simp [hdone]

lemma yieldPagesAux_step_continue {fetch : SfRequest → Record} {req : SfRequest} {resp : Record}
    (h : fetch req = resp)
    (hdone : pyIsTrue (dictGetD resp "done" (JValue.b true)) = false) (fuel : Nat) :
    yieldPagesAux fetch (fuel + 1) req =
      (dictGet resp "records" ::
        (yieldPagesAux fetch fuel ⟨dictGet resp "nextRecordsUrl", none⟩).1,
       req :: (yieldPagesAux fetch fuel ⟨dictGet resp "nextRecordsUrl", none⟩).2) := by
  show yieldPagesAux fetch (Nat.succ fuel) req = _
  rw [yieldPagesAux, h]
  simp [hdone]

/-- Claim C2: page streaming yields the records of each page in order; the first
request carries the query text as the `q` param, each subsequent request
targets the server-provided continuation url with no params; the loop stops
as soon as a response has `done == true` (first conjunct: the concrete
two-page scenario, independent of remaining fuel so no third fetch happens)
or lacks a `done` flag entirely (second conjunct). -/
theorem c2_page_streaming :
    (∀ (fetch : SfRequest → Record) (base_url soql_query u2 : String)
       (rs1 rs2 : List JValue) (n : Nat),
      fetch ⟨JValue.s (base_url ++ QUERY_ENDPOINT), some [("q", soql_query)]⟩ =
        [("records", JValue.arr rs1), ("done", JValue.b false),
         ("nextRecordsUrl", JValue.s u2)] →
      fetch ⟨JValue.s u2, none⟩ =
        [("records", JValue.arr rs2), ("done", JValue.b true)] →
      yield_non_bulk_query_pages fetch base_url soql_query (n + 2) =
        ([JValue.arr rs1, JValue.arr rs2],
         [⟨JValue.s (base_url ++ QUERY_ENDPOINT), some [("q", soql_query)]⟩,
          ⟨JValue.s u2, none⟩])) ∧
    (∀ (fetch : SfRequest → Record) (base_url soql_query : String)
       (rs : List JValue) (n : Nat),
      fetch ⟨JValue.s (base_url ++ QUERY_ENDPOINT), some [("q", soql_query)]⟩ =
        [("records", JValue.arr rs)] →
      yield_non_bulk_query_pages fetch base_url soql_query (n + 1) =
        ([JValue.arr rs],
         [⟨JValue.s (base_url ++ QUERY_ENDPOINT), some [("q", soql_query)]⟩])) := by
  constructor
  · intro fetch base_url soql_query u2 rs1 rs2 n h1 h2
    unfold yield_non_bulk_query_pages
    show yieldPagesAux fetch ((n + 1) + 1) _ = _
    rw [yieldPagesAux_step_continue h1 rfl]
    rw [show (⟨dictGet [("records", JValue.arr rs1), ("done", JValue.b false),
      ("nextRecordsUrl", JValue.s u2)] "nextRecordsUrl", none⟩ : SfRequest) =
      ⟨JValue.s u2, none⟩ from rfl]
    rw [show (n + 1) = n + 1 from rfl, yieldPagesAux_step_done h2 rfl]
    exact rfl
  · intro fetch base_url soql_query rs n h1
    unfold yield_non_bulk_query_pages
    rw [yieldPagesAux_step_done h1 rfl]
    exact rfl

/-- Server model for the witness of the pagination claim: the request with
params is the first query request, the request without params is the
continuation fetch. -/
def c2fetchA : SfRequest → Record := fun req =>
  match req.params with
  | some _ =>
    [("records", JValue.arr [JValue.s "a", JValue.s "b"]), ("done", JValue.b false),
     ("nextRecordsUrl", JValue.s "/next2")]
  | none => [("records", JValue.arr [JValue.s "c"]), ("done", JValue.b true)]

/-- Server model whose single response lacks the `done` flag. -/
def c2fetchB : SfRequest → Record := fun _ => [("records", JValue.arr [JValue.s "x"])]

theorem c2_page_streaming_witness :
    yield_non_bulk_query_pages c2fetchA "https://d.my.salesforce.com" "SELECT Id\nFROM Contact" 5 =
      ([JValue.arr [JValue.s "a", JValue.s "b"], JValue.arr [JValue.s "c"]],
       [⟨JValue.s ("https://d.my.salesforce.com" ++ QUERY_ENDPOINT),
         some [("q", "SELECT Id\nFROM Contact")]⟩,
        ⟨JValue.s "/next2", none⟩]) ∧
    yield_non_bulk_query_pages c2fetchB "https://d.my.salesforce.com" "SELECT Id\nFROM Lead" 7 =
      ([JValue.arr [JValue.s "x"]],
       [⟨JValue.s ("https://d.my.salesforce.com" ++ QUERY_ENDPOINT),
         some [("q", "SELECT Id\nFROM Lead")]⟩]) :=
  ⟨c2_page_streaming.1 c2fetchA "https://d.my.salesforce.com" "SELECT Id\nFROM Contact"
      "/next2" [JValue.s "a", JValue.s "b"] [JValue.s "c"] 3 rfl rfl,
   c2_page_streaming.2 c2fetchB "https://d.my.salesforce.com" "SELECT Id\nFROM Lead"
      [JValue.s "x"] 6 rfl⟩

/-- Builder-call sequence for the witness of the query-builder claim. -/
def c4ops : List BuilderOp :=
  [BuilderOp.with_id, BuilderOp.with_fields ["Name", "Id"], BuilderOp.with_default_metafields]

theorem c4_builder_witness :
    (applyOps (SalesforceSoqlBuilder.mk0 "Account") c4ops).whereClause = "" ∧
    (applyOps (SalesforceSoqlBuilder.mk0 "Account") c4ops).limit = "" ∧
    (pySet (applyOps (SalesforceSoqlBuilder.mk0 "Account") c4ops).fields).count "Id" = 1 := by
  have h := c4_builder_dedup_and_omitted_clauses "Account" c4ops (by decide)
  refine ⟨h.2.1, h.2.2.2.1, ?_⟩
  rw [h.1 "Id"]
  decide

/-- Attempt sequence for the witness of the retry claim: two transient
failures, then a success. -/
def c6nextA : Nat → Except SfError Nat := fun i =>
  if i = 0 then Except.error SfError.requestError
  else if i = 1 then Except.error (SfError.generic 500)
  else Except.ok 7

/-- Attempt sequence that is rate-limited on the first attempt. -/
def c6nextB : Nat → Except SfError Nat := fun _ => Except.error SfError.rateLimited

theorem c6_generic_retry_witness :
    retryCall skipJson RETRIES c6nextA = (Except.ok 7, 3) ∧
    retryCall skipJson RETRIES c6nextB = (Except.error SfError.rateLimited, 1) :=
  ⟨c6_generic_retry_counts.1 Nat c6nextA SfError.requestError (SfError.generic 500) 7
      rfl rfl rfl rfl rfl,
   c6_generic_retry_counts.2 Nat c6nextB SfError.rateLimited rfl (Or.inl rfl)⟩

/-- Claim C3: when the refresh lock is held, `generate` fails immediately
with `LockedException` without touching the stored token; `get_token`
catches that signal, treats it as success, and its retry wrapper therefore
performs no further attempt. -/
theorem c3_refresh_in_progress :
    (∀ (resp : TokenResponse) (tok : JValue),
      generate true resp tok = (Except.error TokenError.locked, tok)) ∧
    get_token_attempt (Except.error TokenError.locked) = Except.ok () ∧
    (∀ next : Nat → Except TokenError Unit, next 0 = Except.ok () →
      retryCall tokenSkip RETRIES next = (Except.ok (), 1)) := by
  refine ⟨fun resp tok => rfl, rfl, fun next h0 => ?_⟩
  show retryAux tokenSkip next (Nat.succ 1) 0 = (Except.ok (), 1)
  rw [retryAux_succ_ok h0]

theorem c3_refresh_in_progress_witness :
    generate true ⟨200, some [("access_token", JValue.s "tok")]⟩ (JValue.s "old") =
      (Except.error TokenError.locked, JValue.s "old") ∧
    retryCall tokenSkip RETRIES
        (fun _ => get_token_attempt (Except.error TokenError.locked)) =
      (Except.ok (), 1) :=
  ⟨c3_refresh_in_progress.1 ⟨200, some [("access_token", JValue.s "tok")]⟩ (JValue.s "old"),
   c3_refresh_in_progress.2.2 (fun _ => get_token_attempt (Except.error TokenError.locked)) rfl⟩

/-- Claim C5: a token-refresh attempt fails with `InvalidCredentialsException`
exactly when the endpoint returns a 4xx status and the `error` field of the
parsed body equals `"invalid_client"`; every other 4xx/5xx yields
`TokenFetchException`; the retry policy of `get_token` never retries
`InvalidCredentialsException` (1 attempt) but does retry
`TokenFetchException`. -/
theorem c5_invalid_credentials_classification :
    (∀ (status : Nat) (body : Record) (tok : JValue),
      400 ≤ status → status < 500 →
      ((generate false ⟨status, some body⟩ tok).1 =
          Except.error TokenError.invalidCredentials ↔ invalidClientBody body = true)) ∧
    (∀ (status : Nat) (body : Record) (tok : JValue),
      400 ≤ status → status < 500 → invalidClientBody body = false →
      (generate false ⟨status, some body⟩ tok).1 = Except.error TokenError.tokenFetch) ∧
    (∀ (status : Nat) (body : Record) (tok : JValue),
      500 ≤ status →
      (generate false ⟨status, some body⟩ tok).1 = Except.error TokenError.tokenFetch) ∧
    (∀ (resp : TokenResponse) (tok : JValue),
      (generate false resp tok).1 = Except.error TokenError.invalidCredentials →
      ∃ body, resp.body = some body ∧ 400 ≤ resp.status ∧ resp.status < 500 ∧
        invalidClientBody body = true) ∧
    tokenSkip TokenError.invalidCredentials = true ∧
    tokenSkip TokenError.tokenFetch = false ∧
    (∀ gen : Nat → Except TokenError Unit,
      gen 0 = Except.error TokenError.invalidCredentials →
      retryCall tokenSkip RETRIES (fun i => get_token_attempt (gen i)) =
        (Except.error TokenError.invalidCredentials, 1)) ∧
    (∀ gen : Nat → Except TokenError Unit,
      gen 0 = Except.error TokenError.tokenFetch → gen 1 = Except.ok () →
      retryCall tokenSkip RETRIES (fun i => get_token_attempt (gen i)) =
        (Except.ok (), 2)) := by
  refine ⟨?_, ?_, ?_, ?_, rfl, rfl, ?_, ?_⟩
  · intro status body tok h4 h5
    by_cases hic : invalidClientBody body = true
    · simp [generate, h4, h5, hic]
    · rw [Bool.not_eq_true] at hic
      simp [generate, h4, h5, hic]
  · intro status body tok h4 h5 hic
    simp [generate, h4, h5, hic]
  · intro status body tok h5
    have h4 : 400 ≤ status := by omega
    have h5x : ¬ status < 500 := by omega
    simp [generate, h4, h5x]
  · intro resp tok h
    obtain ⟨status, body⟩ := resp
    cases body with
    | none => simp [generate] at h
    | some b =>
      by_cases h4 : 400 ≤ status
      · by_cases h5 : status < 500
        · by_cases hic : invalidClientBody b = true
          · exact ⟨b, rfl, h4, h5, hic⟩
          · rw [Bool.not_eq_true] at hic
            simp [generate, h4, h5, hic] at h
        · simp [generate, h4, h5] at h
      · cases hlk : jlookup b "access_token" with
        | none => simp [generate, h4, hlk] at h
        | some v => simp [generate, h4, hlk] at h
  · intro gen h0
    have h0x : (fun i => get_token_attempt (gen i)) 0 =
        Except.error TokenError.invalidCredentials := by
      show get_token_attempt (gen 0) = _
      rw [h0]
      exact rfl
    show retryAux tokenSkip (fun i => get_token_attempt (gen i)) (Nat.succ 1) 0 =
      (Except.error TokenError.invalidCredentials, 1)
    rw [retryAux_succ_skip h0x rfl]
  · intro gen h0 h1
    have h0x : (fun i => get_token_attempt (gen i)) 0 =
        Except.error TokenError.tokenFetch := by
      show get_token_attempt (gen 0) = _
      rw [h0]
      exact rfl
    have h1x : (fun i => get_token_attempt (gen i)) 1 = Except.ok () := by
      show get_token_attempt (gen 1) = _
      rw [h1]
      exact rfl
    show retryAux tokenSkip (fun i => get_token_attempt (gen i)) (Nat.succ 1) 0 =
      (Except.ok (), 2)
    rw [retryAux_succ_err h0x rfl]
    show retryAux tokenSkip (fun i => get_token_attempt (gen i)) (Nat.succ 0) 1 =
      (Except.ok (), 2)
    rw [retryAux_succ_ok h1x]

theorem c5_invalid_credentials_witness :
    (generate false ⟨400, some [("error", JValue.s "invalid_client")]⟩ JValue.null).1 =
      Except.error TokenError.invalidCredentials ∧
    (generate false ⟨400, some [("error", JValue.s "server_error")]⟩ JValue.null).1 =
      Except.error TokenError.tokenFetch ∧
    (generate false ⟨503, some []⟩ JValue.null).1 = Except.error TokenError.tokenFetch ∧
    retryCall tokenSkip RETRIES
        (fun _ => get_token_attempt (Except.error TokenError.invalidCredentials)) =
      (Except.error TokenError.invalidCredentials, 1) :=
  ⟨(c5_invalid_credentials_classification.1 400 [("error", JValue.s "invalid_client")]
      JValue.null (by decide) (by decide)).mpr rfl,
   c5_invalid_credentials_classification.2.1 400 [("error", JValue.s "server_error")]
      JValue.null (by decide) (by decide) rfl,
   c5_invalid_credentials_classification.2.2.1 503 [] JValue.null (by decide),
   c5_invalid_credentials_classification.2.2.2.2.2.2.1
      (fun _ => Except.error TokenError.invalidCredentials) rfl⟩

/-- Claim C10: `generate` is atomic with respect to the stored token: every
failure outcome (lock held, HTTP error status, body-parse failure, success
body lacking `access_token`) leaves the stored token exactly as it was; the
token is mutated only on a success response carrying `access_token`, in
which case it becomes that value. -/
theorem c10_generate_token_atomic (locked : Bool) (resp : TokenResponse) (tok : JValue) :
    ((generate locked resp tok).1 ≠ Except.ok () → (generate locked resp tok).2 = tok) ∧
    ((generate locked resp tok).1 = Except.ok () →
      ∃ body v, resp.body = some body ∧ resp.status < 400 ∧
        jlookup body "access_token" = some v ∧ (generate locked resp tok).2 = v) := by
  cases locked with
  | true => exact ⟨fun _ => rfl, fun h => absurd h (by simp [generate])⟩
  | false =>
    obtain ⟨status, body⟩ := resp
    cases body with
    | none => exact ⟨fun _ => rfl, fun h => absurd h (by simp [generate])⟩
    | some b =>
      by_cases h4 : 400 ≤ status
      · by_cases h5 : status < 500
        · by_cases hic : invalidClientBody b = true
          · constructor
            · intro _
              simp [generate, h4, h5, hic]
            · intro h
              simp [generate, h4, h5, hic] at h
          · rw [Bool.not_eq_true] at hic
            constructor
            · intro _
              simp [generate, h4, h5, hic]
            · intro h
              simp [generate, h4, h5, hic] at h
        · constructor
          · intro _
            simp [generate, h4, h5]
          · intro h
            simp [generate, h4, h5] at h
      · cases hlk : jlookup b "access_token" with
        | none =>
          constructor
          · intro _
            simp [generate, h4, hlk]
          · intro h
            simp [generate, h4, hlk] at h
        | some v =>
          constructor
          · intro h
            exact absurd (by simp [generate, h4, hlk] : (generate false ⟨status, some b⟩ tok).1 = Except.ok ()) h
          · intro _
            exact ⟨b, v, rfl, show status < 400 by omega, hlk, by simp [generate, h4, hlk]⟩

theorem c10_generate_token_atomic_witness :
    ((generate false ⟨400, some [("error", JValue.s "invalid_client")]⟩ (JValue.s "old")).1 ≠
        Except.ok () →
      (generate false ⟨400, some [("error", JValue.s "invalid_client")]⟩ (JValue.s "old")).2 =
        JValue.s "old") ∧
    ((generate false ⟨200, some [("access_token", JValue.s "fresh")]⟩ (JValue.s "old")).1 =
        Except.ok () →
      ∃ body v, (⟨200, some [("access_token", JValue.s "fresh")]⟩ : TokenResponse).body =
          some body ∧
        (⟨200, some [("access_token", JValue.s "fresh")]⟩ : TokenResponse).status < 400 ∧
        jlookup body "access_token" = some v ∧
        (generate false ⟨200, some [("access_token", JValue.s "fresh")]⟩ (JValue.s "old")).2 = v) :=
  ⟨(c10_generate_token_atomic false ⟨400, some [("error", JValue.s "invalid_client")]⟩
      (JValue.s "old")).1,
   (c10_generate_token_atomic false ⟨200, some [("access_token", JValue.s "fresh")]⟩
      (JValue.s "old")).2⟩

/-! Claim C7 concerns `sobjects_cache_by_type`: the four reference-entity
cache tables are built sequentially inside one memoized initialization, so a
failure building one table aborts the build of the later tables and the
partially filled dict stays memoized for the rest of the session. -/

lemma cacheBuildAux_fail {E C : Type} (prepare : String → Except E C) (e : E) :
    ∀ (ts1 : List String) (t : String) (ts2 : List String)
      (acc : List (String × C)) (calls : List String),
      (∀ t1 ∈ ts1, ∃ c, prepare t1 = Except.ok c) → prepare t = Except.error e →
      ∃ accAdd, cacheBuildAux prepare (ts1 ++ t :: ts2) acc calls =
        (Except.error e, some (acc ++ accAdd), calls.reverse ++ (ts1 ++ [t])) ∧
        accAdd.map Prod.fst = ts1 := by
  intro ts1
  induction ts1 with
  | nil =>
    intro t ts2 acc calls _ hfail
    refine ⟨[], ?_, rfl⟩
    show cacheBuildAux prepare (t :: ts2) acc calls = _
    rw [cacheBuildAux, hfail]
    simp
  | cons a rest ih =>
    intro t ts2 acc calls hok hfail
    obtain ⟨c, hc⟩ := hok a (List.mem_cons_self a rest)
    obtain ⟨accAdd, heq, hmap⟩ :=
      ih t ts2 (acc ++ [(a, c)]) (a :: calls)
        (fun t1 ht1 => hok t1 (List.mem_cons_of_mem a ht1)) hfail
    refine ⟨(a, c) :: accAdd, ?_, by simp [hmap]⟩
    show cacheBuildAux prepare (a :: (rest ++ t :: ts2)) acc calls = _
    rw [cacheBuildAux, hc]
    show cacheBuildAux prepare (rest ++ t :: ts2) (acc ++ [(a, c)]) (a :: calls) = _
    rw [heq]
    simp

/-- The builder used by the counterexample: building the Account table
fails, building any other table would succeed. -/
def c7prepare : String → Except String Nat := fun sobject =>
  if sobject == "Account" then Except.error "HTTP 500 while preparing Account"
  else Except.ok 0

/-- Claim C7 as stated is false on the code: when building the Account
table fails, the partially built (empty) cache dict is already stored in
`_sobjects_cache_by_type`, so the next call returns it directly — the
builder is invoked for no other reference type in the whole session, even
though (first conjunct) building the Contact table would have succeeded.
The invocation traces are `["Account"]` and `[]`, and the memoized dict has
no entry for Contact. -/
theorem c7_cache_independence_counterexample :
    c7prepare "Contact" = Except.ok 0 ∧
    sobjects_cache_by_type c7prepare none =
      (Except.error "HTTP 500 while preparing Account", some [], ["Account"]) ∧
    sobjects_cache_by_type c7prepare (some []) = (Except.ok [], some [], []) :=
  ⟨rfl, rfl, rfl⟩

/-- Claim C7 amended: cache tables are built sequentially in the fixed
order Account, Contact, Opportunity, User within a single memoized
initialization; a failure building one table propagates to the triggering
top-level fetch, aborts the build of every later table, and memoizes the
partial dict, so no further table is built in the session. -/
theorem c7_cache_build_aborts_on_failure {E C : Type} (prepare : String → Except E C)
    (ts1 ts2 : List String) (t : String) (e : E)
    (hsplit : cacheOrder = ts1 ++ t :: ts2)
    (hok : ∀ t1 ∈ ts1, ∃ c, prepare t1 = Except.ok c)
    (hfail : prepare t = Except.error e) :
    ∃ acc, sobjects_cache_by_type prepare none = (Except.error e, some acc, ts1 ++ [t]) ∧
      acc.map Prod.fst = ts1 ∧
      sobjects_cache_by_type prepare (some acc) = (Except.ok acc, some acc, []) := by
  obtain ⟨accAdd, heq, hmap⟩ :=
    cacheBuildAux_fail prepare e ts1 t ts2 [] [] hok hfail
  refine ⟨accAdd, ?_, hmap, rfl⟩
  show cacheBuildAux prepare cacheOrder [] [] = _
  rw [hsplit, heq]
  simp

/-- The builder used by the amended-claim witness: building the Contact
table fails, every other build succeeds. -/
def c7prepareB : String → Except String Nat := fun sobject =>
  if sobject == "Contact" then Except.error "boom" else Except.ok 1

theorem c7_cache_build_aborts_witness :
    ∃ acc, sobjects_cache_by_type c7prepareB none =
        (Except.error "boom", some acc, ["Account", "Contact"]) ∧
      acc.map Prod.fst = ["Account"] ∧
      sobjects_cache_by_type c7prepareB (some acc) = (Except.ok acc, some acc, []) :=
  c7_cache_build_aborts_on_failure c7prepareB ["Account"] ["Opportunity", "User"]
    "Contact" "boom" rfl
    (by
      intro t1 ht1
      simp only [List.mem_singleton] at ht1
      subst ht1
      exact ⟨1, rfl⟩)
    rfl

/-- The failing input for the lead-mapper claim: a converted lead whose
ConvertedAccount and ConvertedContact sub-records carry distinct
identifiers. -/
def c8lead : Record :=
  [("Id", JValue.s "lead1"),
   ("ConvertedAccount", JValue.obj [("Id", JValue.s "acc1"), ("Name", JValue.s "Acme")]),
   ("ConvertedContact", JValue.obj [("Id", JValue.s "con1"), ("Name", JValue.s "Carol")])]

/-- Claim C8 concerns source line 721, which computes
`converted_contact_id = converted_account.get("Id")`: the emitted
`converted_contact_url` is derived from the ConvertedAccount identifier, not
from the identifier of the ConvertedContact itself. At the failing input
the own identifier of the ConvertedContact sub-record is `con1` (first
conjunct), yet `converted_contact_url` in the mapped document ends in the
account identifier `acc1`, identical to `converted_account_url`. -/
theorem c8_converted_contact_url_uses_account_id :
    jvGet (dictGetD c8lead "ConvertedContact" (JValue.obj [])) "Id" =
      Except.ok (JValue.s "con1") ∧
    ∃ d, map_lead "https://base" c8lead = Except.ok d ∧
      jlookup d "converted_contact_url" = some (JValue.s "https://base/acc1") ∧
      jlookup d "converted_account_url" = some (JValue.s "https://base/acc1") :=
  ⟨rfl, ⟨_, rfl, rfl, rfl⟩⟩

/-- Claim C9: every document mapper is a total pure function on records
whose present fields are well shaped: it never fails (first four
conjuncts), mapping twice gives identical documents (fifth conjunct), and
on a record with every optional source field absent each output field takes
its stable default — `null` for plain copies, the empty string for
formatted/url fields of account, opportunity and contact, the absent
marker `null` for the conditional url and thumbnail fields of leads (last
four conjuncts). -/
theorem c9_doc_mappers_total_pure (base_url : String) :
    (∀ r, wf_account r = true → ∃ d, map_account base_url r = Except.ok d) ∧
    (∀ r, wf_opportunity r = true → ∃ d, map_opportunity base_url r = Except.ok d) ∧
    (∀ r, wf_contact r = true → ∃ d, map_contact base_url r = Except.ok d) ∧
    (∀ r, wf_lead r = true → ∃ d, map_lead base_url r = Except.ok d) ∧
    (∀ r, map_account base_url r = map_account base_url r ∧
      map_opportunity base_url r = map_opportunity base_url r ∧
      map_contact base_url r = map_contact base_url r ∧
      map_lead base_url r = map_lead base_url r) ∧
    map_account base_url [] = Except.ok
      [("_id", JValue.null), ("account_type", JValue.null), ("address", JValue.s ""),
       ("body", JValue.null), ("content_source_id", JValue.null),
       ("created_at", JValue.null), ("last_updated", JValue.null),
       ("open_activities", JValue.s ""), ("open_activities_urls", JValue.s ""),
       ("opportunity_name", JValue.null), ("opportunity_status", JValue.s ""),
       ("opportunity_url", JValue.s ""), ("owner", JValue.null),
       ("owner_email", JValue.null), ("rating", JValue.null),
       ("source", JValue.s "salesforce"), ("tags", JValue.arr [JValue.null]),
       ("title", JValue.null), ("type", JValue.s "account"),
       ("url", JValue.s (base_url ++ "/" ++ "None")), ("website_url", JValue.null)] ∧
    map_opportunity base_url [] = Except.ok
      [("_id", JValue.null), ("body", JValue.null), ("content_source_id", JValue.null),
       ("created_at", JValue.null), ("last_updated", JValue.null),
       ("next_step", JValue.null), ("owner", JValue.null), ("owner_email", JValue.null),
       ("source", JValue.s "salesforce"), ("status", JValue.s ""),
       ("title", JValue.null), ("type", JValue.s "opportunity"),
       ("url", JValue.s (base_url ++ "/" ++ "None"))] ∧
    map_contact base_url [] = Except.ok
      [("_id", JValue.null), ("account", JValue.null), ("account_url", JValue.s ""),
       ("body", JValue.null), ("email", JValue.null), ("job_title", JValue.null),
       ("last_updated", JValue.null), ("lead_source", JValue.null),
       ("owner", JValue.null), ("owner_url", JValue.s ""), ("phone", JValue.null),
       ("source", JValue.s "salesforce"), ("thumbnail", JValue.s ""),
       ("title", JValue.null), ("type", JValue.s "contact"),
       ("url", JValue.s (base_url ++ "/" ++ "None"))] ∧
    map_lead base_url [] = Except.ok
      [("_id", JValue.null), ("body", JValue.null), ("company", JValue.null),
       ("converted_account", JValue.null), ("converted_account_url", JValue.null),
       ("converted_at", JValue.null), ("converted_contact", JValue.null),
       ("converted_contact_url", JValue.null), ("converted_opportunity", JValue.null),
       ("converted_opportunity_url", JValue.null), ("email", JValue.null),
       ("job_title", JValue.null), ("last_updated", JValue.null),
       ("lead_source", JValue.null), ("owner", JValue.null), ("owner_url", JValue.s ""),
       ("phone", JValue.null), ("rating", JValue.null), ("source", JValue.s "salesforce"),
       ("status", JValue.null), ("title", JValue.null), ("thumbnail", JValue.null),
       ("type", JValue.s "lead"), ("url", JValue.s (base_url ++ "/" ++ "None"))] :=
  ⟨map_account_ok base_url, map_opportunity_ok base_url, map_contact_ok base_url,
   map_lead_ok base_url, fun _ => ⟨rfl, rfl, rfl, rfl⟩, rfl, rfl, rfl, rfl⟩

theorem c9_doc_mappers_witness :
    wf_account [("Owner", JValue.obj [("Name", JValue.s "Bob")])] = true ∧
    (∃ d, map_account "https://x" [("Owner", JValue.obj [("Name", JValue.s "Bob")])] =
      Except.ok d) ∧
    wf_lead [] = true ∧ (∃ d, map_lead "https://x" [] = Except.ok d) :=
  ⟨by decide,
   (c9_doc_mappers_total_pure "https://x").1
     [("Owner", JValue.obj [("Name", JValue.s "Bob")])] (by decide),
   by decide,
   (c9_doc_mappers_total_pure "https://x").2.2.2.1 [] (by decide)⟩

end Salesforce
